import Mathlib

/-!
Shallow embedding of the per-cell task control logic of the `rep` repository.

The Task Processor is translated from `src/generator/internal/task_processor.go`.
Each external call (BBS store operation or container-delegate operation) is
recorded as an `Effect` in an output trace, and its outcome is supplied by a
`ProcessorEnv` of oracles (each operation is invoked at most once per `Process`
invocation, so a single outcome per operation suffices).

The Task Scheduler's implementation is not under `src/`; only its test,
`src/task_scheduler/task_scheduler_test.go`, is.  Its embedding near the end of
this file is modelled from the spec and from the behaviour that test pins.
-/

namespace Rep

/-- Failure-reason constant from task_processor.go line 11. -/
def TaskCompletionReasonMissingContainer : String := "task container does not exist"

/-- Failure-reason constant from task_processor.go line 12. -/
def TaskCompletionReasonFailedToRunContainer : String := "failed to run container"

/-- Failure-reason constant from task_processor.go line 13. -/
def TaskCompletionReasonInvalidTransition : String := "invalid state transition"

/-- Failure-reason constant from task_processor.go line 14. -/
def TaskCompletionReasonFailedToFetchResult : String := "failed to fetch result"

/-- Container state constant `executor.StateReserved` (external executor
package; only distinctness of the five state strings matters here). -/
def StateReserved : String := "reserved"

/-- Container state constant `executor.StateInitializing`. -/
def StateInitializing : String := "initializing"

/-- Container state constant `executor.StateCreated`. -/
def StateCreated : String := "created"

/-- Container state constant `executor.StateRunning`. -/
def StateRunning : String := "running"

/-- Container state constant `executor.StateCompleted`. -/
def StateCompleted : String := "completed"

/-- Tag key constant `rep.ResultFileTag` (defined in the external `rep`
package root, not under `src/`; its exact value is irrelevant to the claims). -/
def ResultFileTag : String := "result-file"

/-- Error kinds surfaced by the BBS store, from the `bbserrors` package:
the `TaskStateTransitionError` type, the sentinel errors
`ErrTaskRunningOnDifferentCell` and `ErrStoreResourceNotFound`, and an open
class of other (e.g. transport) errors. -/
inductive BBSError
  | taskStateTransition
  | taskRunningOnDifferentCell
  | storeResourceNotFound
  | other (msg : String)
deriving DecidableEq, Repr

/-- `executor.Container.RunResult`: present once a container is Completed. -/
structure RunResult where
  failed : Bool
  failureReason : String
deriving DecidableEq, Repr

/-- The fields of `executor.Container` that task_processor.go reads:
Guid, State, RunResult and Tags. -/
structure Container where
  guid : String
  state : String
  runResult : RunResult
  tags : List (String × String)
deriving DecidableEq, Repr

/-- Go map lookup `container.Tags[key]`: a missing key yields the zero value
`""`. -/
def lookupTag (tags : List (String × String)) (key : String) : String :=
  match tags.find? (fun p => p.1 = key) with
  | some p => p.2
  | none => ""

/-- One external call made by the Task Processor: the four BBS store
operations and the container-delegate operations, with the arguments the Go
code passes. -/
inductive Effect
  | startTask (guid cellID : String)
  | runContainer (guid : String)
  | deleteContainer (guid : String)
  | fetchResultFile (guid path : String)
  | completeTask (guid cellID : String) (failed : Bool) (failureReason result : String)
  | failTask (guid reason : String)
deriving DecidableEq, Repr

/-- Oracles for the outcome of each external call a single `Process`
invocation can make (each call site fires at most once per invocation).
`startTaskResult` is `(changed, err)` from `bbs.StartTask`;
`runContainerOk` is the boolean result of `containerDelegate.RunContainer`;
`fetchResult` is `(content, err)` from `FetchContainerResultFile`;
`completeTaskResult` and `failTaskResult` are the error results of
`bbs.CompleteTask` and `bbs.FailTask` (`none` = success). -/
structure ProcessorEnv where
  startTaskResult : Except BBSError Bool
  runContainerOk : Bool
  fetchResult : Except String String
  completeTaskResult : Option BBSError
  failTaskResult : Option BBSError
deriving Repr

/-- `(p *taskProcessor) failTask` (task_processor.go lines 132-141): calls
`bbs.FailTask(guid, reason)`; its error result is only logged, so the trace
records the call and nothing depends on the outcome. -/
def failTask (guid reason : String) : List Effect :=
  [Effect.failTask guid reason]

/-- `(p *taskProcessor) startTask` (task_processor.go lines 81-105): calls
`bbs.StartTask(guid, cellID)`.  On error, a `TaskStateTransitionError`,
`ErrTaskRunningOnDifferentCell` or `ErrStoreResourceNotFound` each trigger
`DeleteContainer`; any other error does not; the function returns false.
On success it returns `changed`. -/
def startTask (cellID : String) (env : ProcessorEnv) (guid : String) :
    List Effect × Bool :=
  match env.startTaskResult with
  | Except.error err =>
      let cleanup : List Effect :=
        if err = BBSError.taskStateTransition then
          [Effect.deleteContainer guid]
        else if err = BBSError.taskRunningOnDifferentCell then
          [Effect.deleteContainer guid]
        else if err = BBSError.storeResourceNotFound then
          [Effect.deleteContainer guid]
        else []
      (Effect.startTask guid cellID :: cleanup, false)
  | Except.ok changed => ([Effect.startTask guid cellID], changed)

/-- `(p *taskProcessor) processActiveContainer` (task_processor.go lines
64-74): start the task; if `startTask` returned false, stop.  Otherwise
request `RunContainer`; if that reports failure, fail the task with reason
"failed to run container". -/
def processActiveContainer (cellID : String) (env : ProcessorEnv)
    (container : Container) : List Effect :=
  let r := startTask cellID env container.guid
  if !r.2 then r.1
  else
    let run := r.1 ++ [Effect.runContainer container.guid]
    if env.runContainerOk then run
    else run ++ failTask container.guid TaskCompletionReasonFailedToRunContainer

/-- The tail of `(p *taskProcessor) completeTask` (task_processor.go lines
118-130): call `bbs.CompleteTask(guid, cellID, failed, failureReason,
result)`; on a `TaskStateTransitionError` fail the task with reason
"invalid state transition"; any other error is only logged. -/
def finalizeTask (cellID : String) (env : ProcessorEnv) (container : Container)
    (result : String) : List Effect :=
  let call := [Effect.completeTask container.guid cellID
    container.runResult.failed container.runResult.failureReason result]
  match env.completeTaskResult with
  | some err =>
      if err = BBSError.taskStateTransition then
        call ++ failTask container.guid TaskCompletionReasonInvalidTransition
      else call
  | none => call

/-- `(p *taskProcessor) completeTask` (task_processor.go lines 107-130): if
the run result is not failed, fetch the result file at the path named by the
container's result-file tag; a fetch error fails the task with reason
"failed to fetch result" and returns without completing.  Otherwise (fetch
succeeded, or the run result is failed and `result` stays `""`) finalize via
`bbs.CompleteTask`. -/
def completeTask (cellID : String) (env : ProcessorEnv)
    (container : Container) : List Effect :=
  if !container.runResult.failed then
    let path := lookupTag container.tags ResultFileTag
    let fetch := [Effect.fetchResultFile container.guid path]
    match env.fetchResult with
    | Except.error _ =>
        fetch ++ failTask container.guid TaskCompletionReasonFailedToFetchResult
    | Except.ok result => fetch ++ finalizeTask cellID env container result
  else finalizeTask cellID env container ""

/-- `(p *taskProcessor) processCompletedContainer` (task_processor.go lines
76-79): complete the task, then delete the container — unconditionally. -/
def processCompletedContainer (cellID : String) (env : ProcessorEnv)
    (container : Container) : List Effect :=
  completeTask cellID env container ++ [Effect.deleteContainer container.guid]

/-- `(p *taskProcessor) Process` (task_processor.go lines 36-62): dispatch on
the container state; the four active states get `processActiveContainer`,
Completed gets `processCompletedContainer`, and any other state falls through
the switch with no action. -/
def Process (cellID : String) (env : ProcessorEnv)
    (container : Container) : List Effect :=
  if container.state = StateReserved then
    processActiveContainer cellID env container
  else if container.state = StateInitializing then
    processActiveContainer cellID env container
  else if container.state = StateCreated then
    processActiveContainer cellID env container
  else if container.state = StateRunning then
    processActiveContainer cellID env container
  else if container.state = StateCompleted then
    processCompletedContainer cellID env container
  else []

/-- The fields of a desired `models.Task` that the scheduler's admission
decision reads: the task guid and its placement tag (`Stack`).  The resource
request, actions and log metadata are passed through to the allocate and run
calls and never inspected by the control flow, so they are elided. -/
structure Task where
  guid : String
  stack : String
deriving DecidableEq, Repr

/-- One external call made by the Task Scheduler during an admission attempt.
The two store compare-and-set calls record whether they succeeded, mirroring
the test's fake BBS, whose `ClaimedTasks`/`StartedTasks` grow only on a
successful call. -/
inductive SchedEffect
  | allocate (guid : String)
  | claimTask (guid : String) (ok : Bool)
  | initContainer (guid : String)
  | startTask (guid : String) (ok : Bool)
  | run (guid : String)
  | deleteContainer (guid : String)
deriving DecidableEq, Repr

/-- Oracles for the outcome of each external call one admission attempt can
make (each fires at most once per attempt). -/
structure SchedulerEnv where
  allocateOk : Bool
  claimOk : Bool
  initOk : Bool
  startOk : Bool
  runOk : Bool
deriving DecidableEq, Repr

/-- Modelled from the spec: the Task Scheduler's per-task admission handler.
Its implementation (`task_scheduler.go`) is not under `src/`; only its test,
`src/task_scheduler/task_scheduler_test.go`, is.  Steps 1-4 follow spec
section 4.1 (placement filter; allocate, abandoning on failure; claim,
deleting the container on failure; initialize, deleting the container on
failure), and the tests confirm each of them.  After a successful
initialize, the spec's step 5 says the attempt terminates, but the test pins
two further steps: a `StartTask` store call whose failure deletes the
container (context "but starting the task fails", lines 177-185) and, on
start success, a run request to the executor (context "and the executor
successfully starts running the task", lines 144-175, which asserts
`StartedTasks` has length 1 inside the fake client's run handler).  The
model follows the tests for those steps, since they are the repository code
that pins the behaviour. -/
def handleTaskRequest (cellStack : String) (env : SchedulerEnv)
    (task : Task) : List SchedEffect :=
  if task.stack ≠ cellStack then []
  else
    SchedEffect.allocate task.guid ::
      (if !env.allocateOk then []
       else SchedEffect.claimTask task.guid env.claimOk ::
         (if !env.claimOk then [SchedEffect.deleteContainer task.guid]
          else SchedEffect.initContainer task.guid ::
            (if !env.initOk then [SchedEffect.deleteContainer task.guid]
             else SchedEffect.startTask task.guid env.startOk ::
               (if !env.startOk then [SchedEffect.deleteContainer task.guid]
                else [SchedEffect.run task.guid]))))

/-- Number of tasks the store sees as Claimed after an admission attempt:
successful `ClaimTask` calls, matching the fake BBS's `ClaimedTasks()`. -/
def claimedCount (trace : List SchedEffect) : Nat :=
  (trace.filter fun e =>
    match e with
    | SchedEffect.claimTask _ true => true
    | _ => false).length

/-- Number of tasks the store sees as Started after an admission attempt:
successful `StartTask` calls, matching the fake BBS's `StartedTasks()`. -/
def startedCount (trace : List SchedEffect) : Nat :=
  (trace.filter fun e =>
    match e with
    | SchedEffect.startTask _ true => true
    | _ => false).length

/-! ## Helper lemmas -/

/-- `completeTask` never emits a `deleteContainer` effect: deletion of a
completed container happens only in `processCompletedContainer`, after
`completeTask` returns. -/
theorem deleteContainer_not_mem_completeTask (cellID : String)
    (env : ProcessorEnv) (c : Container) (g : String) :
    Effect.deleteContainer g ∉ completeTask cellID env c := by
  unfold completeTask finalizeTask failTask
  rcases hfe : env.fetchResult with msg | res <;>
    rcases hce : env.completeTaskResult with _ | err <;>
      cases hf : c.runResult.failed <;>
        simp [hf] <;> split <;> simp

/-- Reduction of `Process` at each of the four active states. -/
theorem process_active_eq (cellID : String) (env : ProcessorEnv)
    (c : Container)
    (hactive : c.state = StateReserved ∨ c.state = StateInitializing ∨
      c.state = StateCreated ∨ c.state = StateRunning) :
    Process cellID env c = processActiveContainer cellID env c := by
  rcases hactive with h | h | h | h <;>
    simp [Process, h, StateReserved, StateInitializing, StateCreated,
      StateRunning, StateCompleted]

/-- Reduction of `Process` at the Completed state. -/
theorem process_completed_eq (cellID : String) (env : ProcessorEnv)
    (c : Container) (h : c.state = StateCompleted) :
    Process cellID env c = processCompletedContainer cellID env c := by
  simp [Process, h, StateReserved, StateInitializing, StateCreated,
    StateRunning, StateCompleted]

/-! ## Claim theorems -/

/-- C1: for every container-state observation in the Completed state, the
Task Processor calls DeleteContainer exactly once for that container's guid,
regardless of whether the fetch of the result file, the CompleteTask call,
or any FailTask call succeeds or fails. -/
theorem completed_container_deleted_once (cellID : String)
    (env : ProcessorEnv) (c : Container) (h : c.state = StateCompleted) :
    (Process cellID env c).count (Effect.deleteContainer c.guid) = 1 := by
  rw [process_completed_eq cellID env c h]
  unfold processCompletedContainer
  rw [List.count_append,
    List.count_eq_zero.mpr (deleteContainer_not_mem_completeTask cellID env c c.guid)]
  simp

/-- C1 witness: a concrete Completed observation, with every store call
succeeding, yields exactly one DeleteContainer call. -/
theorem completed_container_deleted_once_witness :
    (⟨"g", "completed", ⟨false, ""⟩, []⟩ : Container).state = StateCompleted ∧
    (Process "cell" ⟨Except.ok true, true, Except.ok "42", none, none⟩
        ⟨"g", "completed", ⟨false, ""⟩, []⟩).count
      (Effect.deleteContainer "g") = 1 :=
  ⟨rfl,
    completed_container_deleted_once "cell"
      ⟨Except.ok true, true, Except.ok "42", none, none⟩
      ⟨"g", "completed", ⟨false, ""⟩, []⟩ rfl⟩

/-- C2 counterexample: on a Reserved container, when StartTask succeeds with
the idempotent no-op result changed=false, the Task Processor does NOT
request RunContainer — `startTask` returns `changed` and
`processActiveContainer` returns early on false, so the claim as stated is
false at this input. -/
theorem active_noop_start_no_run_counterexample :
    Effect.runContainer "g" ∉
      Process "cell" ⟨Except.ok false, true, Except.ok "", none, none⟩
        ⟨"g", "reserved", ⟨false, ""⟩, []⟩ := by
  decide

/-- C2 amended: for every active-state container observation, if the
StartTask compare-and-set succeeds with changed=true the Task Processor
requests RunContainer for that container; if it succeeds with the idempotent
no-op changed=false (task already Started by this cell), the processor ends
the attempt without requesting any run. -/
theorem active_run_iff_start_changed (cellID : String) (env : ProcessorEnv)
    (c : Container)
    (hactive : c.state = StateReserved ∨ c.state = StateInitializing ∨
      c.state = StateCreated ∨ c.state = StateRunning) :
    (env.startTaskResult = Except.ok true →
      Effect.runContainer c.guid ∈ Process cellID env c) ∧
    (env.startTaskResult = Except.ok false →
      ∀ g, Effect.runContainer g ∉ Process cellID env c) := by
  rw [process_active_eq cellID env c hactive]
  constructor
  · intro hs
    cases hrc : env.runContainerOk <;>
      simp [processActiveContainer, startTask, failTask, hs, hrc]
  · intro hs g
    simp [processActiveContainer, startTask, hs]

/-- C2 amended witness: on a concrete Reserved container, changed=true leads
to a RunContainer request and changed=false leads to none. -/
theorem active_run_iff_start_changed_witness :
    ((⟨"g", "reserved", ⟨false, ""⟩, []⟩ : Container).state = StateReserved ∨
      (⟨"g", "reserved", ⟨false, ""⟩, []⟩ : Container).state = StateInitializing ∨
      (⟨"g", "reserved", ⟨false, ""⟩, []⟩ : Container).state = StateCreated ∨
      (⟨"g", "reserved", ⟨false, ""⟩, []⟩ : Container).state = StateRunning) ∧
    ((⟨Except.ok true, true, Except.ok "", none, none⟩ : ProcessorEnv).startTaskResult =
        Except.ok true →
      Effect.runContainer "g" ∈
        Process "cell" ⟨Except.ok true, true, Except.ok "", none, none⟩
          ⟨"g", "reserved", ⟨false, ""⟩, []⟩) ∧
    ((⟨Except.ok true, true, Except.ok "", none, none⟩ : ProcessorEnv).startTaskResult =
        Except.ok false →
      ∀ g, Effect.runContainer g ∉
        Process "cell" ⟨Except.ok true, true, Except.ok "", none, none⟩
          ⟨"g", "reserved", ⟨false, ""⟩, []⟩) :=
  ⟨Or.inl rfl,
    (active_run_iff_start_changed "cell"
      ⟨Except.ok true, true, Except.ok "", none, none⟩
      ⟨"g", "reserved", ⟨false, ""⟩, []⟩ (Or.inl rfl)).1,
    (active_run_iff_start_changed "cell"
      ⟨Except.ok true, true, Except.ok "", none, none⟩
      ⟨"g", "reserved", ⟨false, ""⟩, []⟩ (Or.inl rfl)).2⟩

/-- C4: for every active-state observation where StartTask returns an error:
a state-transition-invalid, owned-by-different-cell, or record-not-found
error makes the Task Processor delete the container with no run call; every
other error kind leaves the container undeleted with no run call. -/
theorem start_error_classification (cellID : String) (env : ProcessorEnv)
    (c : Container) (e : BBSError)
    (hactive : c.state = StateReserved ∨ c.state = StateInitializing ∨
      c.state = StateCreated ∨ c.state = StateRunning)
    (herr : env.startTaskResult = Except.error e) :
    ((e = BBSError.taskStateTransition ∨ e = BBSError.taskRunningOnDifferentCell ∨
        e = BBSError.storeResourceNotFound) →
      Effect.deleteContainer c.guid ∈ Process cellID env c ∧
        ∀ g, Effect.runContainer g ∉ Process cellID env c) ∧
    ((e ≠ BBSError.taskStateTransition ∧ e ≠ BBSError.taskRunningOnDifferentCell ∧
        e ≠ BBSError.storeResourceNotFound) →
      (∀ g, Effect.deleteContainer g ∉ Process cellID env c) ∧
        ∀ g, Effect.runContainer g ∉ Process cellID env c) := by
  rw [process_active_eq cellID env c hactive]
  constructor
  · rintro (rfl | rfl | rfl) <;>
      simp [processActiveContainer, startTask, herr]
  · rintro ⟨h1, h2, h3⟩
    simp [processActiveContainer, startTask, herr, h1, h2, h3]

/-- C4 witness: on a concrete Reserved container, an
owned-by-different-cell start error deletes the container and requests no
run. -/
theorem start_error_classification_witness :
    ((⟨"g", "reserved", ⟨false, ""⟩, []⟩ : Container).state = StateReserved ∨
      (⟨"g", "reserved", ⟨false, ""⟩, []⟩ : Container).state = StateInitializing ∨
      (⟨"g", "reserved", ⟨false, ""⟩, []⟩ : Container).state = StateCreated ∨
      (⟨"g", "reserved", ⟨false, ""⟩, []⟩ : Container).state = StateRunning) ∧
    (⟨Except.error BBSError.taskRunningOnDifferentCell, true, Except.ok "", none, none⟩ :
        ProcessorEnv).startTaskResult =
      Except.error BBSError.taskRunningOnDifferentCell ∧
    (Effect.deleteContainer "g" ∈
      Process "cell"
        ⟨Except.error BBSError.taskRunningOnDifferentCell, true, Except.ok "", none, none⟩
        ⟨"g", "reserved", ⟨false, ""⟩, []⟩ ∧
      ∀ g, Effect.runContainer g ∉
        Process "cell"
          ⟨Except.error BBSError.taskRunningOnDifferentCell, true, Except.ok "", none, none⟩
          ⟨"g", "reserved", ⟨false, ""⟩, []⟩) :=
  ⟨Or.inl rfl, rfl,
    (start_error_classification "cell"
      ⟨Except.error BBSError.taskRunningOnDifferentCell, true, Except.ok "", none, none⟩
      ⟨"g", "reserved", ⟨false, ""⟩, []⟩ BBSError.taskRunningOnDifferentCell
      (Or.inl rfl) rfl).1 (Or.inr (Or.inl rfl))⟩

/-- C6: for every Completed container with failed=false whose result-file
fetch errors, the Task Processor calls FailTask with reason
"failed to fetch result", never calls CompleteTask for that observation,
and still deletes the container. -/
theorem completed_fetch_failure (cellID : String) (env : ProcessorEnv)
    (c : Container) (msg : String) (hstate : c.state = StateCompleted)
    (hfailed : c.runResult.failed = false)
    (hfetch : env.fetchResult = Except.error msg) :
    Effect.failTask c.guid TaskCompletionReasonFailedToFetchResult ∈
      Process cellID env c ∧
    (∀ g cid f r res, Effect.completeTask g cid f r res ∉ Process cellID env c) ∧
    Effect.deleteContainer c.guid ∈ Process cellID env c := by
  rw [process_completed_eq cellID env c hstate]
  simp [processCompletedContainer, completeTask, failTask, hfailed, hfetch]

/-- C6 witness: a concrete Completed container with failed=false and a
failing fetch yields FailTask("failed to fetch result"), no CompleteTask,
and a container deletion. -/
theorem completed_fetch_failure_witness :
    (⟨"g", "completed", ⟨false, ""⟩, []⟩ : Container).state = StateCompleted ∧
    (⟨"g", "completed", ⟨false, ""⟩, []⟩ : Container).runResult.failed = false ∧
    (⟨Except.ok true, true, Except.error "boom", none, none⟩ :
        ProcessorEnv).fetchResult = Except.error "boom" ∧
    (Effect.failTask "g" TaskCompletionReasonFailedToFetchResult ∈
        Process "cell" ⟨Except.ok true, true, Except.error "boom", none, none⟩
          ⟨"g", "completed", ⟨false, ""⟩, []⟩ ∧
      (∀ g cid f r res, Effect.completeTask g cid f r res ∉
        Process "cell" ⟨Except.ok true, true, Except.error "boom", none, none⟩
          ⟨"g", "completed", ⟨false, ""⟩, []⟩) ∧
      Effect.deleteContainer "g" ∈
        Process "cell" ⟨Except.ok true, true, Except.error "boom", none, none⟩
          ⟨"g", "completed", ⟨false, ""⟩, []⟩) :=
  ⟨rfl, rfl, rfl,
    completed_fetch_failure "cell"
      ⟨Except.ok true, true, Except.error "boom", none, none⟩
      ⟨"g", "completed", ⟨false, ""⟩, []⟩ "boom" rfl rfl rfl⟩

/-- C7: for every Completed container with failed=true, the Task Processor
makes no fetch call and calls CompleteTask with this cell's ID, failed=true,
the run result's failure reason, and an empty result string. -/
theorem completed_failed_no_fetch (cellID : String) (env : ProcessorEnv)
    (c : Container) (hstate : c.state = StateCompleted)
    (hfailed : c.runResult.failed = true) :
    (∀ g p, Effect.fetchResultFile g p ∉ Process cellID env c) ∧
    Effect.completeTask c.guid cellID true c.runResult.failureReason "" ∈
      Process cellID env c := by
  rw [process_completed_eq cellID env c hstate]
  rcases hce : env.completeTaskResult with _ | err
  · simp [processCompletedContainer, completeTask, finalizeTask, failTask,
      hfailed, hce]
  · rcases heq : decide (err = BBSError.taskStateTransition) with _ | _
    · simp at heq
      simp [processCompletedContainer, completeTask, finalizeTask, failTask,
        hfailed, hce, heq]
    · simp at heq
      simp [processCompletedContainer, completeTask, finalizeTask, failTask,
        hfailed, hce, heq]

/-- C7 witness: a concrete Completed container with failed=true and reason
"boom" yields no fetch call and CompleteTask(guid, cellID, true, "boom", ""). -/
theorem completed_failed_no_fetch_witness :
    (⟨"g", "completed", ⟨true, "boom"⟩, []⟩ : Container).state = StateCompleted ∧
    (⟨"g", "completed", ⟨true, "boom"⟩, []⟩ : Container).runResult.failed = true ∧
    ((∀ g p, Effect.fetchResultFile g p ∉
        Process "cell" ⟨Except.ok true, true, Except.ok "42", none, none⟩
          ⟨"g", "completed", ⟨true, "boom"⟩, []⟩) ∧
      Effect.completeTask "g" "cell" true "boom" "" ∈
        Process "cell" ⟨Except.ok true, true, Except.ok "42", none, none⟩
          ⟨"g", "completed", ⟨true, "boom"⟩, []⟩) :=
  ⟨rfl, rfl,
    completed_failed_no_fetch "cell"
      ⟨Except.ok true, true, Except.ok "42", none, none⟩
      ⟨"g", "completed", ⟨true, "boom"⟩, []⟩ rfl rfl⟩

/-- C8: for every CompleteTask call that returns an error, a
state-transition-invalid error makes the Task Processor call FailTask with
reason "invalid state transition"; for every other completion error kind no
FailTask call is made for that observation. -/
theorem complete_error_classification (cellID : String) (env : ProcessorEnv)
    (c : Container) (e : BBSError) (hstate : c.state = StateCompleted)
    (hcalled : c.runResult.failed = true ∨ ∃ r, env.fetchResult = Except.ok r)
    (herr : env.completeTaskResult = some e) :
    (e = BBSError.taskStateTransition →
      Effect.failTask c.guid TaskCompletionReasonInvalidTransition ∈
        Process cellID env c) ∧
    (e ≠ BBSError.taskStateTransition →
      ∀ g reason, Effect.failTask g reason ∉ Process cellID env c) := by
  rw [process_completed_eq cellID env c hstate]
  have hct : ∀ res,
      (e = BBSError.taskStateTransition →
        Effect.failTask c.guid TaskCompletionReasonInvalidTransition ∈
          finalizeTask cellID env c res) ∧
      (e ≠ BBSError.taskStateTransition →
        ∀ g reason, Effect.failTask g reason ∉ finalizeTask cellID env c res) := by
    intro res
    constructor
    · rintro rfl
      simp [finalizeTask, failTask, herr]
    · intro hne g reason
      simp [finalizeTask, failTask, herr, hne]
  rcases hcalled with hfailed | ⟨r, hr⟩
  · have := hct ""
    simpa [processCompletedContainer, completeTask, hfailed] using this
  · cases hfailed : c.runResult.failed
    · have := hct r
      simpa [processCompletedContainer, completeTask, hfailed, hr] using this
    · have := hct ""
      simpa [processCompletedContainer, completeTask, hfailed] using this

/-- C8 witness: a concrete Completed container whose CompleteTask call fails
with a state-transition error gets FailTask("invalid state transition"),
and the same observation with any other completion error kind gets no
FailTask call. -/
theorem complete_error_classification_witness :
    (⟨"g", "completed", ⟨true, "boom"⟩, []⟩ : Container).state = StateCompleted ∧
    ((⟨"g", "completed", ⟨true, "boom"⟩, []⟩ : Container).runResult.failed = true ∨
      ∃ r, (⟨Except.ok true, true, Except.ok "", some BBSError.taskStateTransition,
        none⟩ : ProcessorEnv).fetchResult = Except.ok r) ∧
    (⟨Except.ok true, true, Except.ok "", some BBSError.taskStateTransition, none⟩ :
        ProcessorEnv).completeTaskResult = some BBSError.taskStateTransition ∧
    (BBSError.taskStateTransition = BBSError.taskStateTransition →
      Effect.failTask "g" TaskCompletionReasonInvalidTransition ∈
        Process "cell"
          ⟨Except.ok true, true, Except.ok "", some BBSError.taskStateTransition, none⟩
          ⟨"g", "completed", ⟨true, "boom"⟩, []⟩) :=
  ⟨rfl, Or.inl rfl, rfl,
    (complete_error_classification "cell"
      ⟨Except.ok true, true, Except.ok "", some BBSError.taskStateTransition, none⟩
      ⟨"g", "completed", ⟨true, "boom"⟩, []⟩ BBSError.taskStateTransition
      rfl (Or.inl rfl) rfl).1⟩

/-- C10: for every invocation of Process with a container whose state is
none of Reserved, Initializing, Created, Running, or Completed, the call
performs no store operation and no container-delegate operation: the trace
is empty. -/
theorem process_unknown_state_noop (cellID : String) (env : ProcessorEnv)
    (c : Container)
    (h1 : c.state ≠ StateReserved) (h2 : c.state ≠ StateInitializing)
    (h3 : c.state ≠ StateCreated) (h4 : c.state ≠ StateRunning)
    (h5 : c.state ≠ StateCompleted) :
    Process cellID env c = [] := by
  simp [Process, h1, h2, h3, h4, h5]

/-- C10 witness: a concrete container in an unknown state "stopping"
produces an empty trace. -/
theorem process_unknown_state_noop_witness :
    (⟨"g", "stopping", ⟨false, ""⟩, []⟩ : Container).state ≠ StateReserved ∧
    (⟨"g", "stopping", ⟨false, ""⟩, []⟩ : Container).state ≠ StateInitializing ∧
    (⟨"g", "stopping", ⟨false, ""⟩, []⟩ : Container).state ≠ StateCreated ∧
    (⟨"g", "stopping", ⟨false, ""⟩, []⟩ : Container).state ≠ StateRunning ∧
    (⟨"g", "stopping", ⟨false, ""⟩, []⟩ : Container).state ≠ StateCompleted ∧
    Process "cell" ⟨Except.ok true, true, Except.ok "", none, none⟩
      ⟨"g", "stopping", ⟨false, ""⟩, []⟩ = [] :=
  ⟨by decide, by decide, by decide, by decide, by decide,
    process_unknown_state_noop "cell"
      ⟨Except.ok true, true, Except.ok "", none, none⟩
      ⟨"g", "stopping", ⟨false, ""⟩, []⟩
      (by decide) (by decide) (by decide) (by decide) (by decide)⟩

/-- C3 counterexample: replaying the scenario of the test context "and the
executor successfully starts running the task" (task "task-guid-123" with
the matching stack "my-stack", every external call succeeding), the
admission attempt does make a StartTask store call and a run request after
initialize succeeds, so the claim that no start/run call is made is false
at this input. -/
theorem scheduler_start_run_counterexample :
    SchedEffect.startTask "task-guid-123" true ∈
      handleTaskRequest "my-stack" ⟨true, true, true, true, true⟩
        ⟨"task-guid-123", "my-stack"⟩ ∧
    SchedEffect.run "task-guid-123" ∈
      handleTaskRequest "my-stack" ⟨true, true, true, true, true⟩
        ⟨"task-guid-123", "my-stack"⟩ := by
  decide

/-- C3 amended: for every desired task whose admission succeeds through
allocate, claim, and initialize, the Task Scheduler then makes a StartTask
call against the store; if that start succeeds it requests the executor run
the task, and if the start fails it deletes the container.  The admission
attempt does not terminate after initialize. -/
theorem scheduler_starts_after_init (cellStack : String)
    (env : SchedulerEnv) (task : Task) (hstack : task.stack = cellStack)
    (halloc : env.allocateOk = true) (hclaim : env.claimOk = true)
    (hinit : env.initOk = true) :
    SchedEffect.startTask task.guid env.startOk ∈
      handleTaskRequest cellStack env task ∧
    (env.startOk = true →
      SchedEffect.run task.guid ∈ handleTaskRequest cellStack env task) ∧
    (env.startOk = false →
      SchedEffect.deleteContainer task.guid ∈
        handleTaskRequest cellStack env task) := by
  cases hso : env.startOk <;>
    simp [handleTaskRequest, hstack, halloc, hclaim, hinit, hso]

/-- C3 amended witness: the all-success scenario at concrete inputs makes
the StartTask call and the run request. -/
theorem scheduler_starts_after_init_witness :
    (⟨"t1", "my-stack"⟩ : Task).stack = "my-stack" ∧
    (⟨true, true, true, true, true⟩ : SchedulerEnv).allocateOk = true ∧
    (⟨true, true, true, true, true⟩ : SchedulerEnv).claimOk = true ∧
    (⟨true, true, true, true, true⟩ : SchedulerEnv).initOk = true ∧
    (SchedEffect.startTask "t1" true ∈
        handleTaskRequest "my-stack" ⟨true, true, true, true, true⟩
          ⟨"t1", "my-stack"⟩ ∧
      (true = true →
        SchedEffect.run "t1" ∈
          handleTaskRequest "my-stack" ⟨true, true, true, true, true⟩
            ⟨"t1", "my-stack"⟩) ∧
      (true = false →
        SchedEffect.deleteContainer "t1" ∈
          handleTaskRequest "my-stack" ⟨true, true, true, true, true⟩
            ⟨"t1", "my-stack"⟩)) :=
  ⟨rfl, rfl, rfl, rfl,
    scheduler_starts_after_init "my-stack"
      ⟨true, true, true, true, true⟩ ⟨"t1", "my-stack"⟩ rfl rfl rfl rfl⟩

/-- C5: for every admission attempt in which allocate succeeds and claim
returns an error of any kind, the Task Scheduler makes exactly one
delete-container call for that task's guid, and the store never sees the
task Claimed or Started from this cell. -/
theorem claim_failure_rollback (cellStack : String) (env : SchedulerEnv)
    (task : Task) (hstack : task.stack = cellStack)
    (halloc : env.allocateOk = true) (hclaim : env.claimOk = false) :
    (handleTaskRequest cellStack env task).count
        (SchedEffect.deleteContainer task.guid) = 1 ∧
    claimedCount (handleTaskRequest cellStack env task) = 0 ∧
    startedCount (handleTaskRequest cellStack env task) = 0 := by
  simp [handleTaskRequest, hstack, halloc, hclaim, claimedCount, startedCount,
    List.count_cons, List.count_nil]

/-- C5 witness: a concrete admission attempt whose claim fails deletes the
container exactly once and leaves the claimed and started counts at zero. -/
theorem claim_failure_rollback_witness :
    (⟨"t1", "my-stack"⟩ : Task).stack = "my-stack" ∧
    (⟨true, false, true, true, true⟩ : SchedulerEnv).allocateOk = true ∧
    (⟨true, false, true, true, true⟩ : SchedulerEnv).claimOk = false ∧
    ((handleTaskRequest "my-stack" ⟨true, false, true, true, true⟩
        ⟨"t1", "my-stack"⟩).count (SchedEffect.deleteContainer "t1") = 1 ∧
      claimedCount (handleTaskRequest "my-stack" ⟨true, false, true, true, true⟩
        ⟨"t1", "my-stack"⟩) = 0 ∧
      startedCount (handleTaskRequest "my-stack" ⟨true, false, true, true, true⟩
        ⟨"t1", "my-stack"⟩) = 0) :=
  ⟨rfl, rfl, rfl,
    claim_failure_rollback "my-stack" ⟨true, false, true, true, true⟩
      ⟨"t1", "my-stack"⟩ rfl rfl rfl⟩

/-- C9: for every desired task whose placement tag differs from the cell's
own tag, the Task Scheduler performs no store mutation and allocates no
container: the whole admission trace is empty. -/
theorem placement_filter (cellStack : String) (env : SchedulerEnv)
    (task : Task) (h : task.stack ≠ cellStack) :
    claimedCount (handleTaskRequest cellStack env task) = 0 ∧
    SchedEffect.allocate task.guid ∉ handleTaskRequest cellStack env task ∧
    handleTaskRequest cellStack env task = [] := by
  simp [handleTaskRequest, h, claimedCount]

/-- C9 witness: a concrete task with a non-matching stack produces no claim,
no allocation and an empty trace. -/
theorem placement_filter_witness :
    (⟨"t1", "other-stack"⟩ : Task).stack ≠ "my-stack" ∧
    (claimedCount (handleTaskRequest "my-stack" ⟨true, true, true, true, true⟩
        ⟨"t1", "other-stack"⟩) = 0 ∧
      SchedEffect.allocate "t1" ∉
        handleTaskRequest "my-stack" ⟨true, true, true, true, true⟩
          ⟨"t1", "other-stack"⟩ ∧
      handleTaskRequest "my-stack" ⟨true, true, true, true, true⟩
        ⟨"t1", "other-stack"⟩ = []) :=
  ⟨by decide,
    placement_filter "my-stack" ⟨true, true, true, true, true⟩
      ⟨"t1", "other-stack"⟩ (by decide)⟩

end Rep
